import Mathlib

/-!
Verification of the FancyChat chat relay endpoint.

The repository contains two variants of the POST handler for the chat
route: a timeout-aware variant (src/unnamed/part_000, modelled in
namespace Route) and a base variant without timeout or fine-grained
error mapping (src/fancychatapp/src/app/api/chat/route.js, modelled in
namespace RouteBase). Both are pure request/response translators; the
embedding makes the request body parse result, the environment and the
behaviour of the single upstream fetch explicit inputs, and returns the
caller-visible response together with the outbound request issued (if
any) and the trace of operations on the per-request deadline timer.
-/

namespace FancyChat

/-- JSON values as produced by JSON parsing. Parsed objects have
distinct keys, so field lookup takes the first match. -/
inductive Json where
  | null
  | bool (b : Bool)
  | num (q : Rat)
  | str (s : String)
  | arr (elems : List Json)
  | obj (fields : List (String × Json))

/-- JavaScript truthiness of a JSON value. -/
def Json.truthy : Json → Bool
  | .null => false
  | .bool b => b
  | .num q => q != 0
  | .str s => s != ""
  | .arr _ => true
  | .obj _ => true

/-- Truthiness of a possibly-undefined value; undefined is falsy. -/
def truthyOpt : Option Json → Bool
  | none => false
  | some j => j.truthy

/-- Property access v.key in JavaScript: throws a TypeError when the
base value is null, yields the field for objects (undefined when the
key is missing), and undefined for every other base value. -/
def Json.getField : Json → String → Except Unit (Option Json)
  | .null, _ => .error ()
  | .obj fs, key => .ok (fs.lookup key)
  | _, _ => .ok none

/-- Array.isArray. -/
def isArray : Json → Bool
  | .arr _ => true
  | _ => false

/-- Array.isArray on a possibly-undefined value. -/
def isArrayOpt : Option Json → Bool
  | some j => isArray j
  | none => false

/-- Optional chaining v?.key: undefined when the base is null or
undefined, otherwise ordinary non-throwing property access. -/
def optChainField (v : Option Json) (key : String) : Option Json :=
  match v with
  | none => none
  | some .null => none
  | some (.obj fs) => fs.lookup key
  | some _ => none

/-- Property access on a value that is known not to be null. -/
def Json.fieldOpt (j : Json) (key : String) : Option Json :=
  match j with
  | .obj fs => fs.lookup key
  | _ => none

/-- JavaScript a || b for a possibly-undefined left operand. -/
def jsOr (a : Option Json) (b : Json) : Json :=
  match a with
  | some v => if v.truthy then v else b
  | none => b

/-- The environment variables the handlers read. -/
structure Env where
  OPENROUTER_API_KEY : Option String
  APP_URL : Option String
  APP_NAME : Option String

/-- Truthiness of an environment variable: unset or empty is falsy. -/
def truthyEnv : Option String → Bool
  | none => false
  | some s => s != ""

/-- JavaScript v || fallback for an environment string. -/
def envOr (v : Option String) (fallback : String) : String :=
  match v with
  | none => fallback
  | some s => if s != "" then s else fallback

/-- Status codes in the success range 200 to 299. -/
def okStatus (status : Nat) : Bool :=
  200 ≤ status && status ≤ 299

/-- The upstream HTTP response as observed through fetch: its status
code, the result of reading the body as text, and as parsed JSON. -/
structure UpstreamResponse where
  status : Nat
  bodyText : Except Unit String
  bodyJson : Except Unit Json

/-- response.ok: status in the range 200 to 299. -/
def UpstreamResponse.ok (r : UpstreamResponse) : Bool :=
  okStatus r.status

/-- A JavaScript error value, as far as the handlers inspect it. -/
structure JsError where
  name : String
  code : Option String
  message : String

/-- Behaviour of one upstream call: after elapsedMs milliseconds it
either completes with a response or fails with an error. -/
inductive UpstreamBehaviour where
  | completes (elapsedMs : Nat) (resp : UpstreamResponse)
  | fails (elapsedMs : Nat) (err : JsError)

/-- The time after which the upstream call resolves, either way. -/
def UpstreamBehaviour.elapsedMs : UpstreamBehaviour → Nat
  | .completes t _ => t
  | .fails t _ => t

/-- The error fetch rejects with when the abort signal fires. -/
def abortError : JsError :=
  { name := "AbortError", code := none, message := "This operation was aborted" }

/-- fetch guarded by an abort controller whose timer fires after
timeoutMs milliseconds: when the upstream takes longer than the
deadline the call is aborted and rejects with an AbortError before its
natural outcome can be observed. -/
def fetchWithDeadline (timeoutMs : Nat) (u : UpstreamBehaviour) : Except JsError UpstreamResponse :=
  match u with
  | .completes t r => if timeoutMs < t then .error abortError else .ok r
  | .fails t e => if timeoutMs < t then .error abortError else .error e

/-- fetch with no abort signal: the natural outcome is observed. -/
def fetchNoDeadline (u : UpstreamBehaviour) : Except JsError UpstreamResponse :=
  match u with
  | .completes _ r => .ok r
  | .fails _ e => .error e

/-- A response returned to the caller: status code plus JSON body. -/
structure HttpResponse where
  status : Nat
  body : Json

/-- NextResponse.json(body, status). -/
def NextResponse.json (body : Json) (status : Nat) : HttpResponse :=
  { status := status, body := body }

/-- The JSON body of an error reply. -/
def errBody (msg : String) : Json :=
  .obj [("error", .str msg)]

/-- The outbound request the handlers send to the upstream API. -/
structure OutboundRequest where
  url : String
  method : String
  authorization : String
  contentType : String
  httpReferer : String
  xTitle : String
  body : Json

/-- The JSON payload sent upstream. -/
def upstreamPayload (message : Json) : Json :=
  .obj [("model", .str ("openai/gpt-3.5-turbo")), ("messages", message),
    ("max_tokens", .num 1000), ("temperature", .num (0.7 : Rat))]

/-- The fetch call both handlers issue, including its headers. -/
def outboundRequest (apiKey : String) (env : Env) (message : Json) : OutboundRequest :=
  { url := "https://openrouter.ai/api/v1/chat/completions"
    method := "POST"
    authorization := "Bearer " ++ apiKey
    contentType := "application/json"
    httpReferer := envOr env.APP_URL ("http://localhost:3000")
    xTitle := envOr env.APP_NAME ("FancyChat App")
    body := upstreamPayload message }

/-- The success reply body; a usage field that is undefined is dropped
by JSON serialization. -/
def successBody (content : Json) (usage : Option Json) : Json :=
  .obj ([("success", .bool true), ("response", content)] ++
    (match usage with
     | none => []
     | some u => [("usage", u)]))

/-- Operations on the per-request deadline timer. -/
inductive TimerEvent where
  | set
  | clear
deriving DecidableEq

/-- Everything one call of the timeout-aware handler produces: the
caller-visible response, the upstream request it issued (if any), and
the trace of timer operations. -/
structure PostResult where
  response : HttpResponse
  outbound : Option OutboundRequest
  timerTrace : List TimerEvent

namespace Route

/-- createTimeoutController from part_000: an abort controller whose
timer fires after timeoutMs milliseconds. Its observable effect is
modelled by fetchWithDeadline together with the timer trace. -/
def createTimeoutController (timeoutMs : Nat) : Nat :=
  timeoutMs

/-- Mapping of a non-success upstream status (part_000 lines 107 to
147); the upstream error body is read for logging only. -/
def mapUpstreamError (status : Nat) : HttpResponse :=
  if status = 401 then
    NextResponse.json (errBody ("Invalid API key. Please check your configuration.")) 401
  else if status = 429 then
    NextResponse.json (errBody ("Rate limit exceeded. Please try again later.")) 429
  else if 500 ≤ status then
    NextResponse.json (errBody ("AI service is temporarily unavailable. Please try again later.")) 503
  else
    NextResponse.json (errBody ("Failed to get response from AI service")) status

/-- Mapping of a fetch rejection (part_000 lines 67 to 101). -/
def mapFetchError (e : JsError) : HttpResponse :=
  if e.name = "AbortError" then
    NextResponse.json (errBody ("Request timed out. Please try again.")) 408
  else if e.code = some ("ECONNREFUSED") ∨ e.code = some ("ENOTFOUND") then
    NextResponse.json (errBody ("Unable to connect to AI service. Please try again later.")) 503
  else if e.code = some ("ETIMEDOUT") then
    NextResponse.json (errBody ("Connection timed out. Please try again.")) 504
  else
    NextResponse.json (errBody ("Network error occurred. Please check your connection and try again.")) 502

/-- Processing of an upstream response whose ok flag is true (part_000
lines 149 to 175), paired with the extra timer events of the top-level
catch path. When the parsed body is JSON null, reading data.choices
throws a TypeError that reaches the top-level catch; the message of
that error does not contain the word fetch and its name is not
SyntaxError, so the generic 500 reply is produced, after the catch ran
clearTimeout a second time. -/
def handleOkResponse (resp : UpstreamResponse) : HttpResponse × List TimerEvent :=
  match resp.bodyJson with
  | .error _ => (NextResponse.json (errBody ("Invalid response from AI service")) 502, [])
  | .ok data =>
    match data.getField ("choices") with
    | .error _ =>
      (NextResponse.json (errBody ("An unexpected error occurred. Please try again.")) 500, [.clear])
    | .ok choices =>
      match choices with
      | some (.arr (c0 :: _)) =>
        (NextResponse.json (successBody
            (jsOr (optChainField (optChainField (some c0) ("message")) ("content"))
              (.str ("No response generated")))
            (data.fieldOpt ("usage"))) 200, [])
      | _ =>
        (NextResponse.json (errBody ("Unexpected response format from AI service")) 502, [])

/-- The POST handler of the timeout-aware variant (src/unnamed/
part_000). The request body parse result, the environment and the
upstream behaviour are the inputs; timer operations are recorded in
the trace. In the two branches after validation, message is known to
be a defined array and the key a defined non-empty string, so the
defaults of getD are never taken. -/
def POST (reqBody : Except Unit Json) (env : Env) (upstream : UpstreamBehaviour) : PostResult :=
  match reqBody with
  | .error _ =>
    { response := NextResponse.json (errBody ("Invalid JSON in request body")) 400
      outbound := none
      timerTrace := [] }
  | .ok body =>
    match body.getField ("message") with
    | .error _ =>
      { response := NextResponse.json (errBody ("Invalid JSON in request body")) 400
        outbound := none
        timerTrace := [] }
    | .ok message =>
      if !(truthyOpt message) || !(isArrayOpt message) then
        { response := NextResponse.json (errBody ("Invalid request. Expected {message: []} in body")) 400
          outbound := none
          timerTrace := [] }
      else if !(truthyEnv env.OPENROUTER_API_KEY) then
        { response := NextResponse.json (errBody ("OpenRouter API key not configured")) 500
          outbound := none
          timerTrace := [] }
      else
        let apiKey := (env.OPENROUTER_API_KEY).getD ("")
        let req := outboundRequest apiKey env (message.getD .null)
        match fetchWithDeadline (createTimeoutController 30000) upstream with
        | .error e =>
          { response := mapFetchError e
            outbound := some req
            timerTrace := [.set, .clear] }
        | .ok resp =>
          if !resp.ok then
            { response := mapUpstreamError resp.status
              outbound := some req
              timerTrace := [.set, .clear] }
          else
            let hr := handleOkResponse resp
            { response := hr.fst
              outbound := some req
              timerTrace := [.set, .clear] ++ hr.snd }

/-- The GET handler of part_000: method not allowed. -/
def GET : HttpResponse :=
  NextResponse.json (errBody ("Method not allowed. Use POST instead.")) 405

end Route

namespace RouteBase

/-- Evaluation of data.choices[0] by the base variant, which performs
no structural validation: it throws when data is null or data.choices
is null or undefined; indexing any other non-array yields undefined
(or a one-character string for strings, or the field named 0 for
objects). -/
def choicesIndexZero (data : Json) : Except Unit (Option Json) :=
  match data.getField ("choices") with
  | .error _ => .error ()
  | .ok none => .error ()
  | .ok (some .null) => .error ()
  | .ok (some (.arr xs)) => .ok xs.head?
  | .ok (some (.str s)) =>
    .ok (match s.data with
      | [] => none
      | c :: _ => some (.str (String.mk [c])))
  | .ok (some (.obj fs)) => .ok (fs.lookup ("0"))
  | .ok (some _) => .ok none

/-- The POST handler of the base variant (src/fancychatapp/src/app/
api/chat/route.js). Every exception, including a request body parse
failure, reaches the single top-level catch and yields the 500
internal error reply. -/
def POST (reqBody : Except Unit Json) (env : Env) (upstream : UpstreamBehaviour) : HttpResponse :=
  match reqBody with
  | .error _ => NextResponse.json (errBody ("Internal server error")) 500
  | .ok body =>
    match body.getField ("message") with
    | .error _ => NextResponse.json (errBody ("Internal server error")) 500
    | .ok message =>
      if !(truthyOpt message) || !(isArrayOpt message) then
        NextResponse.json (errBody ("Invalid request. Expected {message: []} in body")) 400
      else if !(truthyEnv env.OPENROUTER_API_KEY) then
        NextResponse.json (errBody ("OpenRouter API key not configured")) 500
      else
        match fetchNoDeadline upstream with
        | .error _ => NextResponse.json (errBody ("Internal server error")) 500
        | .ok resp =>
          if !resp.ok then
            match resp.bodyText with
            | .error _ => NextResponse.json (errBody ("Internal server error")) 500
            | .ok _ => NextResponse.json (errBody ("Failed to get response from AI service")) resp.status
          else
            match resp.bodyJson with
            | .error _ => NextResponse.json (errBody ("Internal server error")) 500
            | .ok data =>
              match choicesIndexZero data with
              | .error _ => NextResponse.json (errBody ("Internal server error")) 500
              | .ok c0 =>
                NextResponse.json (successBody
                  (jsOr (optChainField (optChainField c0 ("message")) ("content"))
                    (.str ("No response generated")))
                  (data.fieldOpt ("usage"))) 200

/-- The GET handler of route.js: method not allowed. -/
def GET : HttpResponse :=
  NextResponse.json (errBody ("Method not allowed. Use POST instead.")) 405

end RouteBase

/-- Recognizer for the two request-validation error bodies. -/
def isValidationErrorBody (j : Json) : Bool :=
  match j with
  | .obj [("error", .str m)] =>
    m == "Invalid JSON in request body" || m == "Invalid request. Expected {message: []} in body"
  | _ => false

/-- Sample environment with a configured key. -/
def sampleEnv : Env :=
  { OPENROUTER_API_KEY := some ("test-key"), APP_URL := none, APP_NAME := none }

/-- Sample environment with no configured key. -/
def noKeyEnv : Env :=
  { OPENROUTER_API_KEY := none, APP_URL := none, APP_NAME := none }

/-- Sample valid request body with an empty message array. -/
def sampleBody : Json := .obj [("message", .arr [])]

/-- Sample well-formed upstream choice entry. -/
def sampleChoice : Json := .obj [("message", .obj [("content", .str ("Hi there"))])]

/-- Sample well-formed upstream response data. -/
def sampleData : Json :=
  .obj [("choices", .arr [sampleChoice]), ("usage", .obj [("total_tokens", .num 5)])]

/-- Sample successful upstream response. -/
def sampleGoodResp : UpstreamResponse :=
  { status := 200, bodyText := .ok (""), bodyJson := .ok sampleData }

/-- Upstream success whose first choice has a content field that is
present but equal to the empty string. -/
def emptyContentResp : UpstreamResponse :=
  { status := 200, bodyText := .ok ("")
    bodyJson := .ok (.obj [("choices",
      .arr [.obj [("message", .obj [("content", .str (""))])]]), ("usage", .null)]) }

/-- Upstream success whose first choice has a numeric content field. -/
def numContentResp : UpstreamResponse :=
  { status := 200, bodyText := .ok ("")
    bodyJson := .ok (.obj [("choices",
      .arr [.obj [("message", .obj [("content", .num 5)])]])]) }

/-- Upstream server-error response with a readable body. -/
def resp500 : UpstreamResponse :=
  { status := 500, bodyText := .ok ("upstream error"), bodyJson := .error () }

/-- A connection-refused transport error. -/
def connRefusedError : JsError :=
  { name := "Error", code := some ("ECONNREFUSED"), message := "connect ECONNREFUSED" }

/-- An outbound request with its authorization header blanked. -/
def stripAuthorization (o : OutboundRequest) : OutboundRequest :=
  { o with authorization := "" }

/-- A post result with the authorization header of its outbound
request blanked: everything observable except the bearer token. -/
def redactKey (r : PostResult) : PostResult :=
  { r with outbound := Option.map stripAuthorization r.outbound }

/-- The error-reply shape: a non-2xx status whose body is exactly one
error field holding a string. -/
def isErrorShape (r : HttpResponse) : Bool :=
  !(okStatus r.status) &&
    (match r.body with
     | .obj [("error", .str _)] => true
     | _ => false)

/-- The success-reply shape: status 200 and a body of success true, a
response field, and an optional trailing usage field. -/
def isSuccessShape (r : HttpResponse) : Bool :=
  (r.status == 200) &&
    (match r.body with
     | .obj (("success", .bool true) :: ("response", _) :: rest) =>
       (match rest with
        | [] => true
        | [("usage", _)] => true
        | _ => false)
     | _ => false)

/-- The success-reply shape as the claim states it, with the response
field required to be a string. -/
def isSuccessShapeStrict (r : HttpResponse) : Bool :=
  (r.status == 200) &&
    (match r.body with
     | .obj (("success", .bool true) :: ("response", .str _) :: rest) =>
       (match rest with
        | [] => true
        | [("usage", _)] => true
        | _ => false)
     | _ => false)

/-- Arrays are truthy. -/
theorem truthy_of_isArray (v : Json) (h : isArray v = true) : v.truthy = true := by
  cases v <;> simp_all [isArray, Json.truthy]

/-- JavaScript or with a truthy left operand keeps the left operand. -/
theorem jsOr_of_truthy (a b : Json) (h : a.truthy = true) : jsOr (some a) b = a := by
  simp [jsOr, h]

/-- JavaScript or with a falsy left operand takes the fallback. -/
theorem jsOr_of_falsy (a : Option Json) (b : Json) (h : truthyOpt a = false) : jsOr a b = b := by
  cases a with
  | none => rfl
  | some v => simp_all [jsOr, truthyOpt]

/-- Once validation and the key check pass, the timeout-aware handler
is fully determined by the outcome of the deadline-guarded fetch. -/
theorem Route.POST_afterValidation (body msgVal : Json) (env : Env) (u : UpstreamBehaviour)
    (hmsg : body.getField ("message") = Except.ok (some msgVal))
    (harr : isArray msgVal = true)
    (hkey : truthyEnv env.OPENROUTER_API_KEY = true) :
    Route.POST (Except.ok body) env u =
      match fetchWithDeadline 30000 u with
      | .error e =>
        { response := Route.mapFetchError e
          outbound := some (outboundRequest ((env.OPENROUTER_API_KEY).getD ("")) env msgVal)
          timerTrace := [.set, .clear] }
      | .ok resp =>
        if !resp.ok then
          { response := Route.mapUpstreamError resp.status
            outbound := some (outboundRequest ((env.OPENROUTER_API_KEY).getD ("")) env msgVal)
            timerTrace := [.set, .clear] }
        else
          { response := (Route.handleOkResponse resp).fst
            outbound := some (outboundRequest ((env.OPENROUTER_API_KEY).getD ("")) env msgVal)
            timerTrace := [.set, .clear] ++ (Route.handleOkResponse resp).snd } := by
  have htv : msgVal.truthy = true := truthy_of_isArray msgVal harr
  simp only [Route.POST, hmsg, truthyOpt, isArrayOpt, htv, harr, hkey, Route.createTimeoutController,
    Bool.not_true, Bool.or_self, Bool.false_or, Option.getD_some]
  simp

/-- On the valid path, an upstream that resolves only after the
deadline is aborted: the handler replies as for an AbortError. -/
theorem Route.POST_pastDeadline (body msgVal : Json) (env : Env) (u : UpstreamBehaviour)
    (hmsg : body.getField ("message") = Except.ok (some msgVal))
    (harr : isArray msgVal = true)
    (hkey : truthyEnv env.OPENROUTER_API_KEY = true)
    (ht : 30000 < u.elapsedMs) :
    Route.POST (Except.ok body) env u =
      { response := Route.mapFetchError abortError
        outbound := some (outboundRequest ((env.OPENROUTER_API_KEY).getD ("")) env msgVal)
        timerTrace := [.set, .clear] } := by
  rw [Route.POST_afterValidation body msgVal env u hmsg harr hkey]
  cases u with
  | completes t r => simp [fetchWithDeadline, UpstreamBehaviour.elapsedMs] at ht ⊢; simp [ht]
  | fails t e => simp [fetchWithDeadline, UpstreamBehaviour.elapsedMs] at ht ⊢; simp [ht]

/-- On the valid path, a fetch failure within the deadline is handled
by the fetch-error mapping. -/
theorem Route.POST_fails (body msgVal : Json) (env : Env) (t : Nat) (e : JsError)
    (hmsg : body.getField ("message") = Except.ok (some msgVal))
    (harr : isArray msgVal = true)
    (hkey : truthyEnv env.OPENROUTER_API_KEY = true)
    (ht : t ≤ 30000) :
    Route.POST (Except.ok body) env (.fails t e) =
      { response := Route.mapFetchError e
        outbound := some (outboundRequest ((env.OPENROUTER_API_KEY).getD ("")) env msgVal)
        timerTrace := [.set, .clear] } := by
  rw [Route.POST_afterValidation body msgVal env _ hmsg harr hkey]
  simp [fetchWithDeadline, Nat.not_lt.mpr ht]

/-- On the valid path, an upstream non-success response within the
deadline is handled by the upstream-status mapping. -/
theorem Route.POST_completes_notok (body msgVal : Json) (env : Env) (t : Nat)
    (resp : UpstreamResponse)
    (hmsg : body.getField ("message") = Except.ok (some msgVal))
    (harr : isArray msgVal = true)
    (hkey : truthyEnv env.OPENROUTER_API_KEY = true)
    (ht : t ≤ 30000)
    (hok : resp.ok = false) :
    Route.POST (Except.ok body) env (.completes t resp) =
      { response := Route.mapUpstreamError resp.status
        outbound := some (outboundRequest ((env.OPENROUTER_API_KEY).getD ("")) env msgVal)
        timerTrace := [.set, .clear] } := by
  rw [Route.POST_afterValidation body msgVal env _ hmsg harr hkey]
  simp [fetchWithDeadline, Nat.not_lt.mpr ht, hok]

/-- On the valid path, an upstream success response within the
deadline is handled by the ok-response processing. -/
theorem Route.POST_completes_ok (body msgVal : Json) (env : Env) (t : Nat)
    (resp : UpstreamResponse)
    (hmsg : body.getField ("message") = Except.ok (some msgVal))
    (harr : isArray msgVal = true)
    (hkey : truthyEnv env.OPENROUTER_API_KEY = true)
    (ht : t ≤ 30000)
    (hok : resp.ok = true) :
    Route.POST (Except.ok body) env (.completes t resp) =
      { response := (Route.handleOkResponse resp).fst
        outbound := some (outboundRequest ((env.OPENROUTER_API_KEY).getD ("")) env msgVal)
        timerTrace := [.set, .clear] ++ (Route.handleOkResponse resp).snd } := by
  rw [Route.POST_afterValidation body msgVal env _ hmsg harr hkey]
  simp [fetchWithDeadline, Nat.not_lt.mpr ht, hok]

/-- No reply of the fetch-failure mapping is a validation error. -/
theorem mapFetchError_not_validation (e : JsError) :
    isValidationErrorBody (Route.mapFetchError e).body = false := by
  unfold Route.mapFetchError
  split
  · rfl
  split
  · rfl
  split
  · rfl
  · rfl

/-- No reply of the upstream-status mapping is a validation error. -/
theorem mapUpstreamError_not_validation (status : Nat) :
    isValidationErrorBody (Route.mapUpstreamError status).body = false := by
  unfold Route.mapUpstreamError
  split
  · rfl
  split
  · rfl
  split
  · rfl
  · rfl

/-- No reply of the ok-response processing is a validation error. -/
theorem handleOkResponse_not_validation (resp : UpstreamResponse) :
    isValidationErrorBody (Route.handleOkResponse resp).fst.body = false := by
  unfold Route.handleOkResponse
  split
  · rfl
  split
  · rfl
  split
  · rfl
  · rfl

/-- The ok-response processing adds either no timer event or exactly
one extra clear (on the top-level catch path for a null body). -/
theorem handleOkResponse_snd (resp : UpstreamResponse) :
    (Route.handleOkResponse resp).snd = [] ∨
    (Route.handleOkResponse resp).snd = [TimerEvent.clear] := by
  unfold Route.handleOkResponse
  split
  · left; rfl
  split
  · right; rfl
  split
  · left; rfl
  · left; rfl

/-- C1 counterexample: an upstream success whose first choice has a
content field that is present but equal to the empty string; the
handler substitutes the placeholder string even though the content
field is present, refuting the only-when-absent clause. -/
theorem c1_empty_content_counterexample :
    optChainField (optChainField
        (some (.obj [("message", .obj [("content", .str (""))])])) ("message")) ("content")
      = some (.str ("")) ∧
    (Route.POST (Except.ok sampleBody) sampleEnv (.completes 0 emptyContentResp)).response
      = NextResponse.json (successBody (.str ("No response generated")) (some .null)) 200 ∧
    Json.str ("") ≠ Json.str ("No response generated") := by
  refine ⟨rfl, rfl, by simp⟩

/-- C1 (amended): for an upstream success (within the deadline, on a
valid request with the key configured) whose parsed body has a
non-empty choices array, the handler returns 200 with a body holding
success true, the extracted response, and the usage field passed
through unchanged; the response equals choices[0].message.content
whenever that chained value is present and truthy, and is the literal
placeholder exactly when the chained access yields an absent or falsy
value (absent field, null, empty string, zero or false). -/
theorem c1_success_extraction (env : Env) (body msgVal : Json)
    (t : Nat) (resp : UpstreamResponse) (data c0 : Json) (rest : List Json)
    (hmsg : body.getField ("message") = Except.ok (some msgVal))
    (harr : isArray msgVal = true)
    (hkey : truthyEnv env.OPENROUTER_API_KEY = true)
    (ht : t ≤ 30000)
    (hok : resp.ok = true)
    (hjson : resp.bodyJson = Except.ok data)
    (hchoices : data.getField ("choices") = Except.ok (some (.arr (c0 :: rest)))) :
    (Route.POST (Except.ok body) env (.completes t resp)).response
      = NextResponse.json
          (successBody
            (jsOr (optChainField (optChainField (some c0) ("message")) ("content"))
              (.str ("No response generated")))
            (data.fieldOpt ("usage"))) 200 ∧
    (∀ c : Json,
       optChainField (optChainField (some c0) ("message")) ("content") = some c →
       c.truthy = true →
       (Route.POST (Except.ok body) env (.completes t resp)).response
         = NextResponse.json (successBody c (data.fieldOpt ("usage"))) 200) ∧
    (truthyOpt (optChainField (optChainField (some c0) ("message")) ("content")) = false →
       (Route.POST (Except.ok body) env (.completes t resp)).response
         = NextResponse.json (successBody (.str ("No response generated"))
             (data.fieldOpt ("usage"))) 200) := by
  have hmain : (Route.POST (Except.ok body) env (.completes t resp)).response
      = NextResponse.json
          (successBody
            (jsOr (optChainField (optChainField (some c0) ("message")) ("content"))
              (.str ("No response generated")))
            (data.fieldOpt ("usage"))) 200 := by
    rw [Route.POST_completes_ok body msgVal env t resp hmsg harr hkey ht hok]
    simp [Route.handleOkResponse, hjson, hchoices]
  refine ⟨hmain, ?_, ?_⟩
  · intro c hc htc
    rw [hmain, hc, jsOr_of_truthy c _ htc]
  · intro hfalsy
    rw [hmain, jsOr_of_falsy _ _ hfalsy]

/-- C1 witness: the spec example response is extracted verbatim. -/
theorem c1_success_extraction_witness :
    (Route.POST (Except.ok sampleBody) sampleEnv (.completes 0 sampleGoodResp)).response
      = NextResponse.json (successBody (.str ("Hi there"))
          (some (.obj [("total_tokens", .num 5)]))) 200 := by
  have h := c1_success_extraction sampleEnv sampleBody (.arr []) 0 sampleGoodResp sampleData
    sampleChoice [] rfl rfl rfl (by decide) rfl rfl rfl
  exact h.2.1 (.str ("Hi there")) rfl rfl

/-- C2: on the valid path, within the deadline, an upstream
non-success status is mapped: 401 to 401 with the invalid-key message,
429 to 429 with the rate-limit message, any status at least 500 to 503
with the unavailable message, and any other non-2xx status passes
through with the generic message; the reply does not depend on the
upstream error body. -/
theorem c2_upstream_error_mapping (env : Env) (body msgVal : Json)
    (t : Nat) (resp : UpstreamResponse)
    (hmsg : body.getField ("message") = Except.ok (some msgVal))
    (harr : isArray msgVal = true)
    (hkey : truthyEnv env.OPENROUTER_API_KEY = true)
    (ht : t ≤ 30000)
    (hok : resp.ok = false) :
    (resp.status = 401 →
       (Route.POST (Except.ok body) env (.completes t resp)).response
         = NextResponse.json (errBody ("Invalid API key. Please check your configuration.")) 401) ∧
    (resp.status = 429 →
       (Route.POST (Except.ok body) env (.completes t resp)).response
         = NextResponse.json (errBody ("Rate limit exceeded. Please try again later.")) 429) ∧
    (500 ≤ resp.status →
       (Route.POST (Except.ok body) env (.completes t resp)).response
         = NextResponse.json
             (errBody ("AI service is temporarily unavailable. Please try again later.")) 503) ∧
    (resp.status ≠ 401 → resp.status ≠ 429 → resp.status < 500 →
       (Route.POST (Except.ok body) env (.completes t resp)).response
         = NextResponse.json (errBody ("Failed to get response from AI service")) resp.status) ∧
    (∀ alt : Except Unit String,
       (Route.POST (Except.ok body) env
           (.completes t { resp with bodyText := alt })).response
         = (Route.POST (Except.ok body) env (.completes t resp)).response) := by
  refine ⟨?_, ?_, ?_, ?_, ?_⟩
  · intro h401
    rw [Route.POST_completes_notok body msgVal env t resp hmsg harr hkey ht hok]
    show Route.mapUpstreamError resp.status = _
    simp [Route.mapUpstreamError, h401]
  · intro h429
    rw [Route.POST_completes_notok body msgVal env t resp hmsg harr hkey ht hok]
    show Route.mapUpstreamError resp.status = _
    simp [Route.mapUpstreamError, h429]
  · intro h5
    rw [Route.POST_completes_notok body msgVal env t resp hmsg harr hkey ht hok]
    show Route.mapUpstreamError resp.status = _
    unfold Route.mapUpstreamError
    rw [if_neg (by omega), if_neg (by omega), if_pos h5]
  · intro h1 h2 h3
    rw [Route.POST_completes_notok body msgVal env t resp hmsg harr hkey ht hok]
    show Route.mapUpstreamError resp.status = _
    unfold Route.mapUpstreamError
    rw [if_neg h1, if_neg h2, if_neg (by omega)]
  · intro alt
    rw [Route.POST_completes_notok body msgVal env t { resp with bodyText := alt }
        hmsg harr hkey ht hok,
      Route.POST_completes_notok body msgVal env t resp hmsg harr hkey ht hok]

/-- C2 witness: an upstream 500 yields 503 with the unavailable
message on a concrete valid request. -/
theorem c2_upstream_error_mapping_witness :
    (Route.POST (Except.ok sampleBody) sampleEnv (.completes 0 resp500)).response
      = NextResponse.json
          (errBody ("AI service is temporarily unavailable. Please try again later.")) 503 := by
  have h := c2_upstream_error_mapping sampleEnv sampleBody (.arr []) 0 resp500
    rfl rfl rfl (by decide) rfl
  exact h.2.2.1 (by decide)

/-- C3: on the valid path, an upstream call that resolves only after
the 30 second deadline is aborted and yields 408 with the timed-out
message, whether it would have completed or failed; a failure within
the deadline (which, not being an abort, is not named AbortError)
yields 503 for the connection-refused and host-not-found codes, 504
for the connection-timeout code, and 502 with the generic network
message for every other code. -/
theorem c3_transport_failure_mapping (env : Env) (body msgVal : Json)
    (hmsg : body.getField ("message") = Except.ok (some msgVal))
    (harr : isArray msgVal = true)
    (hkey : truthyEnv env.OPENROUTER_API_KEY = true) :
    (∀ u : UpstreamBehaviour, 30000 < u.elapsedMs →
       (Route.POST (Except.ok body) env u).response
         = NextResponse.json (errBody ("Request timed out. Please try again.")) 408) ∧
    (∀ t : Nat, ∀ e : JsError, t ≤ 30000 → e.name ≠ "AbortError" →
       ((e.code = some ("ECONNREFUSED") ∨ e.code = some ("ENOTFOUND")) →
          (Route.POST (Except.ok body) env (.fails t e)).response
            = NextResponse.json
                (errBody ("Unable to connect to AI service. Please try again later.")) 503) ∧
       (e.code = some ("ETIMEDOUT") →
          (Route.POST (Except.ok body) env (.fails t e)).response
            = NextResponse.json (errBody ("Connection timed out. Please try again.")) 504) ∧
       (e.code ≠ some ("ECONNREFUSED") → e.code ≠ some ("ENOTFOUND") →
          e.code ≠ some ("ETIMEDOUT") →
          (Route.POST (Except.ok body) env (.fails t e)).response
            = NextResponse.json
                (errBody ("Network error occurred. Please check your connection and try again."))
                502)) := by
  refine ⟨?_, ?_⟩
  · intro u hu
    rw [Route.POST_pastDeadline body msgVal env u hmsg harr hkey hu]
    rfl
  · intro t e ht hn
    refine ⟨?_, ?_, ?_⟩
    · intro hc
      rw [Route.POST_fails body msgVal env t e hmsg harr hkey ht]
      show Route.mapFetchError e = _
      unfold Route.mapFetchError
      rw [if_neg hn, if_pos hc]
    · intro hc
      rw [Route.POST_fails body msgVal env t e hmsg harr hkey ht]
      show Route.mapFetchError e = _
      unfold Route.mapFetchError
      rw [if_neg hn, if_neg (by rw [hc]; simp), if_pos hc]
    · intro h1 h2 h3
      rw [Route.POST_fails body msgVal env t e hmsg harr hkey ht]
      show Route.mapFetchError e = _
      unfold Route.mapFetchError
      rw [if_neg hn, if_neg (not_or.mpr ⟨h1, h2⟩), if_neg h3]

/-- C3 witness: a concrete connection-refused failure maps to 503 and
a concrete 31 second upstream response is aborted to 408. -/
theorem c3_transport_failure_mapping_witness :
    (Route.POST (Except.ok sampleBody) sampleEnv (.fails 10 connRefusedError)).response
      = NextResponse.json
          (errBody ("Unable to connect to AI service. Please try again later.")) 503 ∧
    (Route.POST (Except.ok sampleBody) sampleEnv (.completes 31000 sampleGoodResp)).response
      = NextResponse.json (errBody ("Request timed out. Please try again.")) 408 := by
  have h := c3_transport_failure_mapping sampleEnv sampleBody (.arr []) rfl rfl rfl
  exact ⟨(h.2 10 _ (by decide) (by decide)).1 (Or.inl rfl),
    h.1 (.completes 31000 sampleGoodResp) (by decide)⟩

/-- C4 counterexample: a request body that parses to JSON null lacks a
message field, yet the handler returns 400 with the invalid-JSON
message (accessing body.message throws, and the parse catch handles
it) rather than the invalid-request message the claim specifies. -/
theorem c4_null_body_counterexample :
    (Route.POST (Except.ok .null) sampleEnv (.completes 0 sampleGoodResp)).response
      = NextResponse.json (errBody ("Invalid JSON in request body")) 400 ∧
    (Route.POST (Except.ok .null) sampleEnv (.completes 0 sampleGoodResp)).response
      ≠ NextResponse.json (errBody ("Invalid request. Expected {message: []} in body")) 400 := by
  refine ⟨rfl, ?_⟩
  show NextResponse.json (errBody ("Invalid JSON in request body")) 400 ≠ _
  simp [NextResponse.json, errBody]

/-- C4 (amended): an unparseable body yields 400 with the invalid-JSON
message; a body that parses to JSON null also yields 400 with the
invalid-JSON message (field access on null throws inside the parse
try); a parsed non-null body whose message field is absent or not an
array yields 400 with the invalid-request message; a body whose
message is an empty array passes validation: the reply is never a
validation error. -/
theorem c4_request_validation (env : Env) (u : UpstreamBehaviour) :
    ((Route.POST (Except.error ()) env u).response
       = NextResponse.json (errBody ("Invalid JSON in request body")) 400) ∧
    ((Route.POST (Except.ok .null) env u).response
       = NextResponse.json (errBody ("Invalid JSON in request body")) 400) ∧
    (∀ body : Json, ∀ m : Option Json,
       body.getField ("message") = Except.ok m → isArrayOpt m = false →
       (Route.POST (Except.ok body) env u).response
         = NextResponse.json (errBody ("Invalid request. Expected {message: []} in body")) 400) ∧
    (∀ body : Json,
       body.getField ("message") = Except.ok (some (.arr [])) →
       isValidationErrorBody ((Route.POST (Except.ok body) env u).response.body) = false) := by
  refine ⟨rfl, rfl, ?_, ?_⟩
  · intro body m hm hma
    simp [Route.POST, hm, hma]
  · intro body h
    cases hkey : truthyEnv env.OPENROUTER_API_KEY with
    | false =>
      simp only [Route.POST, h, truthyOpt, isArrayOpt, isArray, Json.truthy, hkey,
        Bool.not_true, Bool.or_self, Bool.not_false]
      rfl
    | true =>
      rw [Route.POST_afterValidation body (.arr []) env u h rfl hkey]
      cases hf : fetchWithDeadline 30000 u with
      | error e => simpa using mapFetchError_not_validation e
      | ok resp =>
        cases hok : resp.ok with
        | false =>
          simpa [hok] using mapUpstreamError_not_validation resp.status
        | true =>
          simpa [hok] using handleOkResponse_not_validation resp

/-- C4 witness: concrete instances of the amended validation claims. -/
theorem c4_request_validation_witness :
    (Route.POST (Except.ok (.obj [("message", .str ("hi"))])) sampleEnv
        (.completes 0 sampleGoodResp)).response
      = NextResponse.json (errBody ("Invalid request. Expected {message: []} in body")) 400 ∧
    isValidationErrorBody
        ((Route.POST (Except.ok sampleBody) sampleEnv (.completes 0 sampleGoodResp)).response.body)
      = false := by
  constructor
  · exact (c4_request_validation sampleEnv (.completes 0 sampleGoodResp)).2.2.1
      (.obj [("message", .str ("hi"))]) (some (.str ("hi"))) rfl rfl
  · exact (c4_request_validation sampleEnv (.completes 0 sampleGoodResp)).2.2.2 sampleBody rfl

/-- C5 counterexample: with the key missing and an unparseable request
body, the handler returns 400 for the body, not the 500 configuration
error the claim specifies for any input. -/
theorem c5_invalid_body_counterexample :
    (Route.POST (Except.error ()) noKeyEnv (.completes 0 sampleGoodResp)).response
      = NextResponse.json (errBody ("Invalid JSON in request body")) 400 ∧
    (Route.POST (Except.error ()) noKeyEnv (.completes 0 sampleGoodResp)).response.status ≠ 500 :=
  ⟨rfl, by decide⟩

/-- C5 (amended): when the request body is valid (it parses, and its
message field is an array) and the configured key is absent or empty,
the handler returns 500 with the key-not-configured message. The
as-stated claim fails for invalid bodies because validation runs
before the key check. -/
theorem c5_missing_key (reqBody : Except Unit Json) (env : Env) (u : UpstreamBehaviour)
    (body msgVal : Json)
    (hreq : reqBody = Except.ok body)
    (hmsg : body.getField ("message") = Except.ok (some msgVal))
    (harr : isArray msgVal = true)
    (hkey : truthyEnv env.OPENROUTER_API_KEY = false) :
    (Route.POST reqBody env u).response
      = NextResponse.json (errBody ("OpenRouter API key not configured")) 500 := by
  subst hreq
  have htv := truthy_of_isArray msgVal harr
  simp [Route.POST, hmsg, truthyOpt, isArrayOpt, htv, harr, hkey]

/-- C5 witness: the amended claim at a concrete valid body. -/
theorem c5_missing_key_witness :
    (Route.POST (Except.ok sampleBody) noKeyEnv (.completes 0 sampleGoodResp)).response
      = NextResponse.json (errBody ("OpenRouter API key not configured")) 500 :=
  c5_missing_key (Except.ok sampleBody) noKeyEnv (.completes 0 sampleGoodResp) sampleBody
    (.arr []) rfl rfl rfl rfl

/-- C6: on every execution of the timeout-aware handler the timer
trace is empty (no timer was created), or set followed by clear, or
set followed by two clears (the top-level catch path clears an already
cleared timer); in particular every created timer is cleared. -/
theorem c6_timer_always_cleared (reqBody : Except Unit Json) (env : Env) (u : UpstreamBehaviour) :
    (Route.POST reqBody env u).timerTrace = [] ∨
    (Route.POST reqBody env u).timerTrace = [TimerEvent.set, TimerEvent.clear] ∨
    (Route.POST reqBody env u).timerTrace
      = [TimerEvent.set, TimerEvent.clear, TimerEvent.clear] := by
  unfold Route.POST
  split
  · left; rfl
  split
  · left; rfl
  split
  · left; rfl
  split
  · left; rfl
  dsimp only
  split
  · right; left; rfl
  · rename_i resp heq
    split
    · right; left; rfl
    · rcases handleOkResponse_snd resp with h | h
      · rw [h]; right; left; rfl
      · rw [h]; right; right; rfl

/-- C7 counterexample: with a valid request, a configured key and an
upstream that completes promptly with status 500 (so the base variant
completes with no transport failure and no timeout), the base variant
passes the 500 through with the generic message while the
timeout-aware variant replies 503 with the unavailable message: the
variants disagree on an execution the claim covers. -/
theorem c7_variants_differ_counterexample :
    RouteBase.POST (Except.ok sampleBody) sampleEnv (.completes 0 resp500)
      = NextResponse.json (errBody ("Failed to get response from AI service")) 500 ∧
    (Route.POST (Except.ok sampleBody) sampleEnv (.completes 0 resp500)).response
      = NextResponse.json
          (errBody ("AI service is temporarily unavailable. Please try again later.")) 503 ∧
    (RouteBase.POST (Except.ok sampleBody) sampleEnv (.completes 0 resp500)).status
      ≠ (Route.POST (Except.ok sampleBody) sampleEnv (.completes 0 resp500)).response.status :=
  ⟨rfl, rfl, by decide⟩

/-- C7 (amended): the two variants agree (same status and body) when
the request body parses to a value whose message field access does not
throw, and either validation rejects the message, or the key is
missing while the message is an array, or the key is present and the
upstream completes within the deadline with either a non-success
status other than 401 and 429 and below 500 together with a readable
error body, or a success status whose body parses to JSON with a
choices field that is a non-empty array. Outside this region the
variants differ: the timeout-aware variant adds timeout and
transport-failure handling, dedicated 401, 429 and 5xx mappings,
response-structure validation and finer parse-failure replies. -/
theorem c7_agreement (env : Env) (u : UpstreamBehaviour) (body : Json) (m : Option Json)
    (hm : body.getField ("message") = Except.ok m) :
    ((!(truthyOpt m) || !(isArrayOpt m)) = true →
       RouteBase.POST (Except.ok body) env u = (Route.POST (Except.ok body) env u).response) ∧
    (∀ msgVal : Json, m = some msgVal → isArray msgVal = true →
       truthyEnv env.OPENROUTER_API_KEY = false →
       RouteBase.POST (Except.ok body) env u = (Route.POST (Except.ok body) env u).response) ∧
    (∀ msgVal : Json, ∀ t : Nat, ∀ resp : UpstreamResponse,
       m = some msgVal → isArray msgVal = true →
       truthyEnv env.OPENROUTER_API_KEY = true →
       u = .completes t resp → t ≤ 30000 →
       ((resp.ok = false → resp.status ≠ 401 → resp.status ≠ 429 → resp.status < 500 →
           (∃ s : String, resp.bodyText = Except.ok s) →
           RouteBase.POST (Except.ok body) env u = (Route.POST (Except.ok body) env u).response) ∧
        (∀ data c0 : Json, ∀ rest : List Json,
           resp.ok = true → resp.bodyJson = Except.ok data →
           data.getField ("choices") = Except.ok (some (.arr (c0 :: rest))) →
           RouteBase.POST (Except.ok body) env u
             = (Route.POST (Except.ok body) env u).response))) := by
  refine ⟨?_, ?_, ?_⟩
  · intro hcond
    simp [RouteBase.POST, Route.POST, hm, hcond]
  · intro msgVal hmv harr hkey
    subst hmv
    have htv := truthy_of_isArray msgVal harr
    simp [RouteBase.POST, Route.POST, hm, truthyOpt, isArrayOpt, htv, harr, hkey]
  · intro msgVal t resp hmv hu hkey hueq ht
    subst hmv
    subst hueq
    have htv := truthy_of_isArray msgVal hu
    constructor
    · rintro hok h1 h2 h3 ⟨s, hs⟩
      rw [Route.POST_completes_notok body msgVal env t resp hm hu hkey ht hok]
      show RouteBase.POST _ _ _ = Route.mapUpstreamError resp.status
      simp only [RouteBase.POST, hm, truthyOpt, isArrayOpt, htv, hu, hkey, Bool.not_true,
        Bool.or_self, Bool.false_or, fetchNoDeadline, hok, hs]
      simp
      unfold Route.mapUpstreamError
      rw [if_neg h1, if_neg h2, if_neg (Nat.not_le.mpr h3)]
    · intro data c0 rest hok hjson hchoices
      rw [Route.POST_completes_ok body msgVal env t resp hm hu hkey ht hok]
      show RouteBase.POST _ _ _ = (Route.handleOkResponse resp).fst
      simp only [RouteBase.POST, hm, truthyOpt, isArrayOpt, htv, hu, hkey, Bool.not_true,
        Bool.or_self, Bool.false_or, fetchNoDeadline, hok, hjson,
        RouteBase.choicesIndexZero, hchoices, List.head?]
      simp [Route.handleOkResponse, hjson, hchoices]

/-- C7 witness: the two variants agree on a concrete well-formed
upstream success. -/
theorem c7_agreement_witness :
    RouteBase.POST (Except.ok sampleBody) sampleEnv (.completes 0 sampleGoodResp)
      = (Route.POST (Except.ok sampleBody) sampleEnv (.completes 0 sampleGoodResp)).response := by
  have h := c7_agreement sampleEnv (.completes 0 sampleGoodResp) sampleBody (some (.arr [])) rfl
  exact (h.2.2 (.arr []) 0 sampleGoodResp rfl rfl rfl rfl (by decide)).2 sampleData
    sampleChoice [] rfl rfl rfl

/-- C8: the timeout-aware handler is a pure function of the request
body, the configuration and the upstream behaviour: two runs with
identical inputs produce identical full outputs (response, outbound
request and timer trace); the embedding threads no other state, since
the source keeps none. -/
theorem c8_deterministic (r1 r2 : Except Unit Json) (e1 e2 : Env) (u1 u2 : UpstreamBehaviour)
    (hr : r1 = r2) (he : e1 = e2) (hu : u1 = u2) :
    Route.POST r1 e1 u1 = Route.POST r2 e2 u2 := by
  subst hr
  subst he
  subst hu
  rfl

/-- C8 witness: two identical concrete runs coincide. -/
theorem c8_deterministic_witness :
    Route.POST (Except.ok sampleBody) sampleEnv (.completes 0 sampleGoodResp)
      = Route.POST (Except.ok sampleBody) sampleEnv (.completes 0 sampleGoodResp) :=
  c8_deterministic (Except.ok sampleBody) (Except.ok sampleBody) sampleEnv sampleEnv
    (.completes 0 sampleGoodResp) (.completes 0 sampleGoodResp) rfl rfl rfl

/-- Every reply of the fetch-error mapping has the error shape. -/
theorem mapFetchError_shape (e : JsError) :
    isErrorShape (Route.mapFetchError e) = true := by
  unfold Route.mapFetchError
  split
  · rfl
  split
  · rfl
  split
  · rfl
  · rfl

/-- Every reply of the upstream-status mapping for a non-2xx status
has the error shape. -/
theorem mapUpstreamError_shape (status : Nat) (h : okStatus status = false) :
    isErrorShape (Route.mapUpstreamError status) = true := by
  unfold Route.mapUpstreamError
  split
  · rfl
  split
  · rfl
  split
  · rfl
  · simp [isErrorShape, NextResponse.json, errBody, h]

/-- A success reply has the success shape whatever the content and the
optional usage value are. -/
theorem successReply_shape (content : Json) (usage : Option Json) :
    (isSuccessShape (NextResponse.json (successBody content usage) 200)
      || isErrorShape (NextResponse.json (successBody content usage) 200)) = true := by
  cases usage <;> rfl

/-- Every reply of the ok-response processing has one of the two
shapes. -/
theorem handleOkResponse_shape (resp : UpstreamResponse) :
    (isSuccessShape (Route.handleOkResponse resp).fst
      || isErrorShape (Route.handleOkResponse resp).fst) = true := by
  unfold Route.handleOkResponse
  split
  · rfl
  split
  · rfl
  split
  · exact successReply_shape _ _
  · rfl

/-- C9 counterexample: with numeric upstream content the handler
returns status 200 whose response field is the number 5, so the reply
matches neither the claimed success shape (which requires a string
response field) nor the error shape. -/
theorem c9_nonstring_response_counterexample :
    (Route.POST (Except.ok sampleBody) sampleEnv (.completes 0 numContentResp)).response
      = NextResponse.json (successBody (.num 5) none) 200 ∧
    (isSuccessShapeStrict ((Route.POST (Except.ok sampleBody) sampleEnv
          (.completes 0 numContentResp)).response)
       || isErrorShape ((Route.POST (Except.ok sampleBody) sampleEnv
          (.completes 0 numContentResp)).response)) = false :=
  ⟨rfl, rfl⟩

/-- C9 (amended): every reply of either POST handler has one of
exactly two shapes: status 200 with a body of success true, a response
field (not necessarily a string) and an optional trailing usage field,
or a non-2xx status with a body that is exactly one error field
holding a string; in particular an error body never comes with a 2xx
status and a success body never with a non-200 status. -/
theorem c9_response_shapes (reqBody : Except Unit Json) (env : Env) (u : UpstreamBehaviour) :
    (isSuccessShape (Route.POST reqBody env u).response
      || isErrorShape (Route.POST reqBody env u).response) = true ∧
    (isSuccessShape (RouteBase.POST reqBody env u)
      || isErrorShape (RouteBase.POST reqBody env u)) = true := by
  constructor
  · unfold Route.POST
    split
    · rfl
    split
    · rfl
    split
    · rfl
    split
    · rfl
    dsimp only
    split
    · rename_i e heq
      simp [mapFetchError_shape e]
    · rename_i resp heq
      split
      · rename_i hok
        have hok' : okStatus resp.status = false := by
          simpa [UpstreamResponse.ok] using hok
        simp [mapUpstreamError_shape resp.status hok']
      · exact handleOkResponse_shape resp
  · unfold RouteBase.POST
    split
    · rfl
    split
    · rfl
    split
    · rfl
    split
    · rfl
    split
    · rfl
    · rename_i resp heq
      split
      · rename_i hok
        have hok' : okStatus resp.status = false := by
          simpa [UpstreamResponse.ok] using hok
        split
        · rfl
        · simp [isSuccessShape, isErrorShape, NextResponse.json, errBody, hok']
      · split
        · rfl
        · split
          · rfl
          · exact successReply_shape _ _

/-- C10: the configured key value does not influence anything the
caller or the timer observe: for any two non-empty key values, with
the same request and upstream behaviour, the redacted outputs are
identical (same response, same timer trace, outbound requests equal
once the authorization header is blanked), and the key reaches the
output only as the bearer authorization header of the outbound
request. -/
theorem c10_key_noninterference (reqBody : Except Unit Json) (u : UpstreamBehaviour)
    (k1 k2 : String) (appUrl appName : Option String)
    (h1 : k1 ≠ "") (h2 : k2 ≠ "") :
    redactKey (Route.POST reqBody
        { OPENROUTER_API_KEY := some k1, APP_URL := appUrl, APP_NAME := appName } u)
      = redactKey (Route.POST reqBody
        { OPENROUTER_API_KEY := some k2, APP_URL := appUrl, APP_NAME := appName } u) ∧
    (∀ o : OutboundRequest,
       (Route.POST reqBody
          { OPENROUTER_API_KEY := some k1, APP_URL := appUrl, APP_NAME := appName } u).outbound
         = some o →
       o.authorization = "Bearer " ++ k1) := by
  have htk1 : truthyEnv (some k1) = true := by simp [truthyEnv, h1]
  have htk2 : truthyEnv (some k2) = true := by simp [truthyEnv, h2]
  cases reqBody with
  | error e =>
    exact ⟨rfl, fun o h => Option.noConfusion h⟩
  | ok body =>
    cases hm : body.getField ("message") with
    | error e =>
      constructor
      · simp only [Route.POST, hm]
      · intro o h
        simp only [Route.POST, hm] at h
        exact Option.noConfusion h
    | ok message =>
      cases hv : !(truthyOpt message) || !(isArrayOpt message) with
      | true =>
        constructor
        · simp [Route.POST, hm, hv]
        · intro o h
          simp [Route.POST, hm, hv] at h
      | false =>
        have hmv : ∃ xs : List Json, message = some (.arr xs) := by
          cases message with
          | none => exact absurd hv (by simp [truthyOpt])
          | some v =>
            cases v with
            | arr xs => exact ⟨xs, rfl⟩
            | null => exact absurd hv (by simp [isArrayOpt, isArray])
            | bool b => exact absurd hv (by simp [isArrayOpt, isArray])
            | num q => exact absurd hv (by simp [isArrayOpt, isArray])
            | str s => exact absurd hv (by simp [isArrayOpt, isArray])
            | obj fs => exact absurd hv (by simp [isArrayOpt, isArray])
        obtain ⟨xs, rfl⟩ := hmv
        rw [Route.POST_afterValidation body (.arr xs) _ u hm rfl htk1,
          Route.POST_afterValidation body (.arr xs) _ u hm rfl htk2]
        cases hf : fetchWithDeadline 30000 u with
        | error e =>
          exact ⟨rfl, fun o h => by cases Option.some.inj h; rfl⟩
        | ok resp =>
          dsimp only
          cases hok : resp.ok with
          | false =>
            exact ⟨rfl, fun o h => by cases Option.some.inj h; rfl⟩
          | true =>
            exact ⟨rfl, fun o h => by cases Option.some.inj h; rfl⟩

/-- C10 witness: two concrete distinct keys yield identical redacted
outputs. -/
theorem c10_key_noninterference_witness :
    redactKey (Route.POST (Except.ok sampleBody) { OPENROUTER_API_KEY := some ("key-one"), APP_URL := none, APP_NAME := none } (.completes 0 sampleGoodResp))
      = redactKey (Route.POST (Except.ok sampleBody) { OPENROUTER_API_KEY := some ("key-two"), APP_URL := none, APP_NAME := none } (.completes 0 sampleGoodResp)) :=
  (c10_key_noninterference (Except.ok sampleBody) (.completes 0 sampleGoodResp)
    ("key-one") ("key-two") none none (by decide) (by decide)).1

end FancyChat
